import Mathlib

/-!
Verification of the page-annotation pipeline and upload dispatch of
`src/main.py` (ONHO_Preview_File_Script).

The program's core is `process_image` (src/main.py lines 143-182): given an
image and four option strings it conditionally converts to grayscale,
conditionally rotates 90 degrees with canvas expansion, draws punch-hole
marks, and draws a staple mark.  The surrounding `upload_file` handler
(lines 93-138) saves the uploaded file and dispatches on the filename
extension.

Shallow embedding choices:
* An image is a record of width, height, color mode and a pixel function,
  mirroring a PIL Image's value (`img.size`, `img.mode`, pixel access).
* The drawing calls (`draw.ellipse`, `draw.polygon`) are external PIL
  rasterization; the embedding records them as a trace of draw commands
  carrying exactly the coordinates and fill the code passes, which is what
  the claims about mark geometry are about.
* `img.convert("L")` on an already-grayscale image returns an identical
  copy, so the embedding makes it the identity on `Mode.L` images;
  otherwise it maps every pixel to its luminance (PIL's documented
  ITU-R 601-2 weighting L = (299 R + 587 G + 114 B) / 1000).
* `img.rotate(90, expand=True)` rotates 90 degrees counter-clockwise and
  expands the canvas: new width = old height, new height = old width, and
  the pixel at source position (x, y) appears at (y, width - 1 - x).
* Python `//` on non-negative ints is `Nat` division; subtracting the
  radius can go below zero, so command coordinates are `Int`.
* The filesystem effect of `upload_file` is the ordered list of paths it
  writes.  The office-document and PDF branches hand over to external
  collaborators (comtypes, PyMuPDF); they are recorded as opaque branch
  results after the initial save of the uploaded file, which is the only
  write of those branches performed by this repository's code before the
  hand-over.
-/

/-- PIL color modes used by the program: 24-bit color ("RGB") and 8-bit
grayscale ("L"). -/
inductive Mode where
  | RGB : Mode
  | L : Mode
deriving DecidableEq, Repr

/-- A raster image: dimensions, color mode, and pixel contents.  Pixels are
(r, g, b) triples; in mode `L` the single channel is stored in all three
components. -/
structure Img where
  width : Nat
  height : Nat
  mode : Mode
  px : Nat → Nat → Nat × Nat × Nat

/-- PIL's documented RGB-to-L luminance weighting (ITU-R 601-2):
L = (299 R + 587 G + 114 B) / 1000. -/
def luminance (r g b : Nat) : Nat :=
  (r * 299 + g * 587 + b * 114) / 1000

/-- `img.convert("L")` (src/main.py line 148): converting an already-L
image yields an identical copy; otherwise every pixel collapses to its
luminance and the mode becomes L. -/
def convertL (img : Img) : Img :=
  if img.mode = Mode.L then img
  else
    { width := img.width, height := img.height, mode := Mode.L,
      px := fun x y =>
        match img.px x y with
        | (r, g, b) => (luminance r g b, luminance r g b, luminance r g b) }

/-- `img.rotate(90, expand=True)` (src/main.py line 152): rotate 90 degrees
counter-clockwise with the canvas expanded, so the new width is the old
height and the new height is the old width; the output pixel at (x, y) is
the input pixel at (width - 1 - y, x). -/
def rotate90expand (img : Img) : Img :=
  { width := img.height, height := img.width, mode := img.mode,
    px := fun x y => img.px (img.width - 1 - y) x }

/-- A recorded drawing call: `draw.ellipse((x0, y0, x1, y1), fill)` or
`draw.polygon(points, fill)`. -/
inductive DrawCmd where
  | ellipse (x0 y0 x1 y1 : Int) (fill : String)
  | polygon (points : List (Int × Int)) (fill : String)
deriving DecidableEq, Repr

/-- The punch-mark drawing calls (src/main.py lines 158-164), as a function
of the image height at that point and the `paper_punch` option.  Python's
`height // 3 - 10` is Nat division followed by Int subtraction. -/
def punchCmds (height : Nat) (paper_punch : String) : List DrawCmd :=
  if paper_punch = "two_holes" then
    [DrawCmd.ellipse 10 (((height / 3 : Nat) : Int) - 10) 30 (((height / 3 : Nat) : Int) + 10) "grey",
     DrawCmd.ellipse 10 (((2 * height / 3 : Nat) : Int) - 10) 30 (((2 * height / 3 : Nat) : Int) + 10) "grey"]
  else if paper_punch = "three_holes" then
    [DrawCmd.ellipse 10 (((height / 4 : Nat) : Int) - 10) 30 (((height / 4 : Nat) : Int) + 10) "grey",
     DrawCmd.ellipse 10 (((height / 2 : Nat) : Int) - 10) 30 (((height / 2 : Nat) : Int) + 10) "grey",
     DrawCmd.ellipse 10 (((3 * height / 4 : Nat) : Int) - 10) 30 (((3 * height / 4 : Nat) : Int) + 10) "grey"]
  else []

/-- The staple drawing call (src/main.py lines 167-175), as a function of
the `paper_binding` option; the four vertices are hardcoded. -/
def bindingCmds (paper_binding : String) : List DrawCmd :=
  if paper_binding = "corner_staple" then
    [DrawCmd.polygon [(35, 40), (75, 30), (77, 35), (37, 45)] "grey"]
  else []

/-- `process_image` (src/main.py lines 143-182): grayscale if
`copy_color == "black_and_white"`, rotate if `orientation == "landscape"`,
then draw punch marks from the current height and the staple mark.  The
result is the transformed image together with the trace of drawing calls
issued on it. -/
def process_image (img : Img) (copy_color orient paper_punch paper_binding : String) :
    Img × List DrawCmd :=
  let img1 := if copy_color = "black_and_white" then convertL img else img
  let img2 := if orient = "landscape" then rotate90expand img1 else img1
  (img2, punchCmds img2.height paper_punch ++ bindingCmds paper_binding)

/-- Directory for raw uploads (src/main.py line 13). -/
def UPLOAD_FOLDER : String := "uploaded_files"

/-- Directory for served images (src/main.py line 14). -/
def IMAGE_FOLDER : String := "pdf_images"

/-- `file.filename.split(".")[-1].lower()` (src/main.py line 101), modelled
on the character list: split on the dot character, take the last piece,
lowercase it. -/
def file_extension (filename : String) : String :=
  String.mk (((filename.data.splitOn '.').getLastD []).map Char.toLower)

/-- An upload request: the file (name and, when it is an image, its raster
content) and the four form option strings. -/
structure UploadReq where
  filename : String
  content : Img
  copy_color : String
  orientation : String
  paper_punch : String
  paper_binding : String

/-- The possible handler outcomes: a preview page of processed images, the
"Unsupported file type!" page, or hand-over to the external
office-conversion / PDF-rasterization collaborators. -/
inductive Response where
  | preview (results : List (Img × List DrawCmd)) : Response
  | unsupported : Response
  | officeConversion : Response
  | pdfConversion : Response

/-- `upload_file` (src/main.py lines 93-138): computes the extension, saves
the uploaded file (lines 105-106, unconditionally, before any branch),
then dispatches.  The result is the response together with the ordered
list of filesystem writes the repository's code performs; the office and
PDF branches stop at the hand-over to external converters. -/
def upload_file (req : UploadReq) : Response × List String :=
  let ext := file_extension req.filename
  let uploaded_file_path := UPLOAD_FOLDER ++ "/" ++ req.filename
  if ext ∈ ["doc", "docx", "ppt", "pptx"] then
    (Response.officeConversion, [uploaded_file_path])
  else if ext = "pdf" then
    (Response.pdfConversion, [uploaded_file_path])
  else if ext ∈ ["jpg", "jpeg", "png"] then
    let image_path := IMAGE_FOLDER ++ "/" ++ req.filename
    let result := process_image req.content req.copy_color req.orientation
      req.paper_punch req.paper_binding
    let transformed_image_path := IMAGE_FOLDER ++ "/processed_" ++ req.filename
    (Response.preview [result], [uploaded_file_path, image_path, transformed_image_path])
  else
    (Response.unsupported, [uploaded_file_path])

/-- A filled circle of radius `r` centered at (cx, cy), as the bounding-box
ellipse PIL draws for it; used to state the spec's description of punch
marks. -/
def filledCircle (cx cy r : Int) (fill : String) : DrawCmd :=
  DrawCmd.ellipse (cx - r) (cy - r) (cx + r) (cy + r) fill

/-- A fixed 2x2 RGB test image. -/
def testImg : Img :=
  { width := 2, height := 2, mode := Mode.RGB, px := fun _ _ => (100, 150, 200) }

/-- An upload request for "a.jpg" with the out-of-domain option value
copy_color = "sepia" and the other options at their defaults. -/
def sepiaReq : UploadReq :=
  { filename := "a.jpg", content := testImg, copy_color := "sepia",
    orientation := "portrait", paper_punch := "no_hole", paper_binding := "no_staple" }

/-- An upload request with an extension outside the supported set. -/
def txtReq : UploadReq :=
  { filename := "notes.txt", content := testImg, copy_color := "black_and_white",
    orientation := "portrait", paper_punch := "two_holes", paper_binding := "corner_staple" }

theorem convertL_width (img : Img) : (convertL img).width = img.width := by
  by_cases h : img.mode = Mode.L <;> simp [convertL, h]

theorem convertL_height (img : Img) : (convertL img).height = img.height := by
  by_cases h : img.mode = Mode.L <;> simp [convertL, h]

theorem rotate90expand_width (img : Img) : (rotate90expand img).width = img.height := rfl

theorem rotate90expand_height (img : Img) : (rotate90expand img).height = img.width := rfl

/-- The uploaded file's path is among the writes of every `upload_file`
run: the save at src/main.py lines 105-106 precedes every branch of the
extension dispatch. -/
theorem mem_upload_writes (req : UploadReq) :
    (UPLOAD_FOLDER ++ "/" ++ req.filename) ∈ (upload_file req).2 := by
  by_cases h1 : file_extension req.filename ∈ (["doc", "docx", "ppt", "pptx"] : List String)
  · simp [upload_file, h1]
  · by_cases h2 : file_extension req.filename = "pdf"
    · simp [upload_file, h1, h2]
    · by_cases h3 : file_extension req.filename ∈ (["jpg", "jpeg", "png"] : List String)
      · simp [upload_file, h1, h2, h3]
      · simp [upload_file, h1, h2, h3]

/-- C2: with `two_holes` the annotator draws filled circles of radius 10
centered at x = 20 and y = height/3 and 2·height/3 (floor division); with
`three_holes` at height/4, height/2 and 3·height/4; with `no_hole` no
marks are drawn; on a 900px-tall image the two_holes centers are y = 300
and y = 600. -/
theorem punch_mark_geometry (h : Nat) :
    punchCmds h "two_holes" =
      [filledCircle 20 (((h / 3 : Nat) : Int)) 10 "grey",
       filledCircle 20 (((2 * h / 3 : Nat) : Int)) 10 "grey"]
  ∧ punchCmds h "three_holes" =
      [filledCircle 20 (((h / 4 : Nat) : Int)) 10 "grey",
       filledCircle 20 (((h / 2 : Nat) : Int)) 10 "grey",
       filledCircle 20 (((3 * h / 4 : Nat) : Int)) 10 "grey"]
  ∧ punchCmds h "no_hole" = []
  ∧ punchCmds 900 "two_holes" =
      [filledCircle 20 300 10 "grey", filledCircle 20 600 10 "grey"] := by
  refine ⟨?_, ?_, ?_, by decide⟩ <;> simp [punchCmds, filledCircle]

/-- C3: with `corner_staple` the binding step appends exactly one filled
polygon with the fixed vertices (35,40), (75,30), (77,35), (37,45),
independent of the image (the tail is the same constant for every input);
with `no_staple` the binding step adds nothing and the image component is
unchanged. -/
theorem staple_mark_fixed (img : Img) (cc orient pp : String) :
    (process_image img cc orient pp "corner_staple").2
      = punchCmds (process_image img cc orient pp "corner_staple").1.height pp
        ++ [DrawCmd.polygon [(35, 40), (75, 30), (77, 35), (37, 45)] "grey"]
  ∧ (process_image img cc orient pp "no_staple").2
      = punchCmds (process_image img cc orient pp "no_staple").1.height pp
  ∧ (process_image img cc orient pp "no_staple").1
      = (process_image img cc orient pp "corner_staple").1 := by
  refine ⟨?_, ?_, ?_⟩ <;> simp [process_image, bindingCmds]

/-- C8: grayscale conversion is idempotent: converting an image to L twice
yields the same image as converting it once, since converting an L image
is the identity. -/
theorem grayscale_idempotent (img : Img) : convertL (convertL img) = convertL img := by
  by_cases h : img.mode = Mode.L
  · simp [convertL, h]
  · simp [convertL, h]

/-- C9: the landscape rotation is an involution on dimensions: rotating
twice restores the original width and height. -/
theorem rotation_dims_involution (img : Img) :
    (rotate90expand (rotate90expand img)).width = img.width
  ∧ (rotate90expand (rotate90expand img)).height = img.height :=
  ⟨rfl, rfl⟩

/-- C6 counterexample: on a 15px-tall image with `two_holes` the annotator
neither clamps nor skips: it emits both circles and the first bounding box
has top coordinate -5, a negative drawing coordinate (and bottom
coordinate 20, beyond the 15px height). -/
theorem punch_no_clamp_cex :
    punchCmds 15 "two_holes" =
      [DrawCmd.ellipse 10 (-5) 30 15 "grey", DrawCmd.ellipse 10 0 30 20 "grey"]
  ∧ (-5 : Int) < 0 := by decide

/-- C6 amended: for heights below what the geometry requires the annotator
does not clamp or skip: with `two_holes` it always emits both circles with
top coordinates height/3 - 10 and 2·height/3 - 10, and whenever the height
is below 30 the first top coordinate is negative. -/
theorem punch_no_clamp_small_height (h : Nat) (hlt : h < 30) :
    punchCmds h "two_holes" =
      [DrawCmd.ellipse 10 (((h / 3 : Nat) : Int) - 10) 30 (((h / 3 : Nat) : Int) + 10) "grey",
       DrawCmd.ellipse 10 (((2 * h / 3 : Nat) : Int) - 10) 30 (((2 * h / 3 : Nat) : Int) + 10) "grey"]
  ∧ ((h / 3 : Nat) : Int) - 10 < 0 := by
  constructor
  · simp [punchCmds]
  · have h3 : h / 3 ≤ 29 / 3 := Nat.div_le_div_right (by omega)
    omega

theorem punch_no_clamp_small_height_witness :
    (15 : Nat) < 30 ∧ ((15 / 3 : Nat) : Int) - 10 < 0 :=
  ⟨by decide, (punch_no_clamp_small_height 15 (by decide)).2⟩

/-- C1: the pipeline applies color reduction before rotation (the image
component is the rotation step applied to the color step's output), and
the punch and staple commands are computed from the dimensions after the
rotation step: under landscape the drawing height is the original width,
under any other orientation it is the original height; punch commands
precede the binding command. -/
theorem pipeline_order_and_dims (img : Img) (cc orient pp pb : String) :
    (process_image img cc orient pp pb).1
      = (if orient = "landscape" then rotate90expand else id)
          ((if cc = "black_and_white" then convertL else id) img)
  ∧ (orient = "landscape" →
      (process_image img cc orient pp pb).2 = punchCmds img.width pp ++ bindingCmds pb)
  ∧ (orient ≠ "landscape" →
      (process_image img cc orient pp pb).2 = punchCmds img.height pp ++ bindingCmds pb) := by
  refine ⟨?_, ?_, ?_⟩
  · by_cases h1 : cc = "black_and_white" <;> by_cases h2 : orient = "landscape" <;>
      simp [process_image, h1, h2]
  · intro h2
    by_cases h1 : cc = "black_and_white" <;>
      simp [process_image, h1, h2, rotate90expand_height, convertL_width]
  · intro h2
    by_cases h1 : cc = "black_and_white" <;>
      simp [process_image, h1, h2, convertL_height]

theorem pipeline_order_and_dims_witness :
    (process_image testImg "color" "landscape" "two_holes" "no_staple").2
      = punchCmds testImg.width "two_holes" ++ bindingCmds "no_staple" :=
  (pipeline_order_and_dims testImg "color" "landscape" "two_holes" "no_staple").2.1 rfl

/-- C4: the rotation step swaps the dimensions (output width = input
height, output height = input width), preserves the color mode, loses no
content (every input pixel (x, y) appears in the output at (y, width-1-x),
which is inside the new bounds); with orientation "portrait" the rotation
step leaves the color step's output unchanged, with "landscape" it applies
`rotate90expand` to it. -/
theorem rotation_landscape_spec (img : Img) :
    (rotate90expand img).width = img.height
  ∧ (rotate90expand img).height = img.width
  ∧ (rotate90expand img).mode = img.mode
  ∧ (∀ x y, x < img.width → y < img.height →
      (rotate90expand img).px y (img.width - 1 - x) = img.px x y)
  ∧ (∀ cc pp pb, (process_image img cc "portrait" pp pb).1
      = (if cc = "black_and_white" then convertL img else img))
  ∧ (∀ cc pp pb, (process_image img cc "landscape" pp pb).1
      = rotate90expand (if cc = "black_and_white" then convertL img else img)) := by
  refine ⟨rfl, rfl, rfl, ?_, ?_, ?_⟩
  · intro x y hx hy
    have hxx : img.width - 1 - (img.width - 1 - x) = x := by omega
    simp [rotate90expand, hxx]
  · intro cc pp pb
    simp [process_image]
  · intro cc pp pb
    simp [process_image]

theorem rotation_landscape_spec_witness :
    (rotate90expand testImg).px 0 (testImg.width - 1 - 1) = testImg.px 1 0 :=
  (rotation_landscape_spec testImg).2.2.2.1 1 0 (by decide) (by decide)

/-- C7: the annotation pipeline is deterministic: identical image content
and identical option values produce identical outputs (the pipeline is a
pure function of its inputs; nothing else influences the result). -/
theorem annotation_deterministic (imgA imgB : Img) (ccA oA pA bA ccB oB pB bB : String)
    (him : imgA = imgB) (hcc : ccA = ccB) (ho : oA = oB) (hp : pA = pB) (hb : bA = bB) :
    process_image imgA ccA oA pA bA = process_image imgB ccB oB pB bB := by
  subst him hcc ho hp hb
  rfl

theorem annotation_deterministic_witness :
    process_image testImg "black_and_white" "landscape" "two_holes" "corner_staple"
      = process_image testImg "black_and_white" "landscape" "two_holes" "corner_staple" :=
  annotation_deterministic testImg testImg "black_and_white" "landscape" "two_holes"
    "corner_staple" "black_and_white" "landscape" "two_holes" "corner_staple"
    rfl rfl rfl rfl rfl

/-- C5 counterexample: the upload of "a.jpg" with the out-of-domain value
copy_color = "sepia" does not fail: it writes three files (the upload, the
image copy, the processed image) and returns a normal preview, identical
to the one produced with copy_color = "color" — the invalid value is
silently treated as the default. -/
theorem invalid_option_silently_processed :
    upload_file sepiaReq
      = (Response.preview [(testImg, [])],
         ["uploaded_files/a.jpg", "pdf_images/a.jpg", "pdf_images/processed_a.jpg"])
  ∧ (upload_file sepiaReq).1 = (upload_file { sepiaReq with copy_color := "color" }).1 :=
  ⟨rfl, rfl⟩

/-- C5 amended: the system performs no option validation: a value outside
its field's enumerated domain is silently treated as that field's no-op
default — independently of the other three fields, which may hold any
values — replacing the invalid value by the default (color, portrait,
no_hole or no_staple respectively) leaves the result unchanged;
processing proceeds, and the uploaded file is written to disk for every
request; no InvalidOption error exists. -/
theorem invalid_options_default (img : Img) (req : UploadReq) (cc orient pp pb : String) :
    (cc ∉ (["black_and_white", "color"] : List String) →
      process_image img cc orient pp pb = process_image img "color" orient pp pb)
  ∧ (orient ∉ (["portrait", "landscape"] : List String) →
      process_image img cc orient pp pb = process_image img cc "portrait" pp pb)
  ∧ (pp ∉ (["no_hole", "two_holes", "three_holes"] : List String) →
      process_image img cc orient pp pb = process_image img cc orient "no_hole" pb)
  ∧ (pb ∉ (["no_staple", "corner_staple"] : List String) →
      process_image img cc orient pp pb = process_image img cc orient pp "no_staple")
  ∧ (UPLOAD_FOLDER ++ "/" ++ req.filename) ∈ (upload_file req).2 := by
  refine ⟨?_, ?_, ?_, ?_, mem_upload_writes req⟩
  · intro h
    simp at h
    simp [process_image, h.1]
  · intro h
    simp at h
    simp [process_image, h.2]
  · intro h
    simp at h
    simp [process_image, punchCmds, h.2.1, h.2.2]
  · intro h
    simp at h
    simp [process_image, bindingCmds, h.2]

theorem invalid_options_default_witness :
    ("sepia" ∉ (["black_and_white", "color"] : List String))
  ∧ process_image testImg "sepia" "portrait" "no_hole" "no_staple"
      = process_image testImg "color" "portrait" "no_hole" "no_staple" :=
  ⟨by decide,
   (invalid_options_default testImg sepiaReq "sepia" "portrait" "no_hole" "no_staple").1
     (by decide)⟩

/-- C10: every upload is first written into the upload directory under its
original filename, in every branch of the extension dispatch; in
particular a request with an unsupported extension is answered with the
"Unsupported file type!" page while the uploaded file remains the one
persisted write — the error path does not leave the filesystem
unchanged. -/
theorem upload_persists_on_unsupported (req : UploadReq) :
    (UPLOAD_FOLDER ++ "/" ++ req.filename) ∈ (upload_file req).2
  ∧ (file_extension req.filename ∉
        (["doc", "docx", "ppt", "pptx", "pdf", "jpg", "jpeg", "png"] : List String) →
      upload_file req = (Response.unsupported, [UPLOAD_FOLDER ++ "/" ++ req.filename])) := by
  refine ⟨mem_upload_writes req, ?_⟩
  intro h
  simp at h
  obtain ⟨hd, hdx, hp, hpx, hpdf, hj, hje, hpn⟩ := h
  simp [upload_file, hd, hdx, hp, hpx, hpdf, hj, hje, hpn]

theorem upload_persists_on_unsupported_witness :
    upload_file txtReq = (Response.unsupported, [UPLOAD_FOLDER ++ "/" ++ txtReq.filename]) :=
  (upload_persists_on_unsupported txtReq).2 (by decide)
